import Mathlib

/-!
Verification of the `es_disk_planner` crate (src/src/lib.rs).

The whole library is one pure function, `plan_capacity`, working on Rust's
`f64` and `u32`.  We shallow-embed it as follows:

* `u32` values become `ℕ` (the claims never exercise 32-bit overflow, and all
  values appearing in the claims are far below `2^32`; the cast `as f64` is
  exact for every `u32`).
* `f64` values become the type `F` below: an exact rational (`F.num q`) or
  `F.nan`.  Finite `f64` arithmetic is modelled exactly by rational
  arithmetic — the spec's "to floating-point tolerance" equalities are proved
  with error `0` — and the IEEE-754 comparison semantics of NaN (every
  ordered comparison involving NaN is false, and NaN propagates through
  `+`, `*`, `/`) is kept, because the validation code of `plan_capacity`
  branches on such comparisons.  Infinities are not modelled; no claim
  mentions them.
* `Result<Plan, String>` becomes `Except String Plan`, `Option<f64>` becomes
  `Option F`.
-/

namespace EsDiskPlanner

/-- Model of an `f64` value: an exact rational or NaN (see the header). -/
inductive F where
  | num (q : ℚ)
  | nan
deriving DecidableEq, Repr

namespace F

/-- IEEE `+` on the modelled values: exact on finite values, NaN propagates. -/
def add : F → F → F
  | num a, num b => num (a + b)
  | _, _ => nan

/-- IEEE `*` on the modelled values: exact on finite values, NaN propagates
(including `0 * NaN = NaN`, as in IEEE-754). -/
def mul : F → F → F
  | num a, num b => num (a * b)
  | _, _ => nan

/-- IEEE `/` on the modelled values.  A zero divisor would give `±inf` or NaN
in IEEE-754; in `plan_capacity` both divisors are guaranteed nonzero by the
validation that precedes them whenever they are finite, so mapping that
unreachable case to `nan` loses nothing. -/
def div : F → F → F
  | num a, num b => if b = 0 then nan else num (a / b)
  | _, _ => nan

/-- IEEE `<=`: false whenever either operand is NaN. -/
def fle : F → F → Bool
  | num a, num b => decide (a ≤ b)
  | _, _ => false

/-- IEEE `<`: false whenever either operand is NaN (Rust's `a > b` is `b < a`). -/
def flt : F → F → Bool
  | num a, num b => decide (a < b)
  | _, _ => false

end F

/-- The `Plan` struct of `src/src/lib.rs` (derived values first, then the
echoed inputs), field for field. -/
structure Plan where
  base : F
  with_merge : F
  with_headroom : F
  buffer_total : F
  total_cluster : F
  per_node : F
  disk_per_node : F
  target_utilization : F
  nodes : ℕ
  primaries : ℕ
  replicas : ℕ
  shard_size_gb : F
  overhead_merge : F
  headroom : F
  buffer_per_node_gb : Option F
deriving DecidableEq, Repr

/-- `plan_capacity` of `src/src/lib.rs`, statement for statement: the four
validation checks in source order (each returning the source's error string),
then the derivation chain, then the `Plan` literal that echoes the inputs. -/
def plan_capacity (nodes primaries replicas : ℕ)
    (shard_size_gb overhead_merge headroom : F)
    (buffer_per_node_gb : Option F) (target_utilization : F) :
    Except String Plan :=
  if nodes = 0 then
    .error "nodes must be > 0"
  else if target_utilization.fle (F.num 0) || (F.num 1).flt target_utilization then
    .error "target_utilization must be in (0, 1]"
  else if overhead_merge.flt (F.num 0) || headroom.flt (F.num 0) then
    .error "overhead_merge/headroom must be >= 0"
  else if shard_size_gb.fle (F.num 0) then
    .error "shard_size_gb must be > 0"
  else
    let nodes_f : F := F.num (nodes : ℚ)
    let primaries_f : F := F.num (primaries : ℚ)
    let replicas_f : F := F.num (replicas : ℚ)
    let buf := buffer_per_node_gb.getD shard_size_gb
    let base := (primaries_f.mul shard_size_gb).mul ((F.num 1).add replicas_f)
    let with_merge := base.mul ((F.num 1).add overhead_merge)
    let with_headroom := with_merge.mul ((F.num 1).add headroom)
    let buffer_total := buf.mul nodes_f
    let total_cluster := with_headroom.add buffer_total
    let per_node := total_cluster.div nodes_f
    let disk_per_node := per_node.div target_utilization
    .ok { base := base
          with_merge := with_merge
          with_headroom := with_headroom
          buffer_total := buffer_total
          total_cluster := total_cluster
          per_node := per_node
          disk_per_node := disk_per_node
          target_utilization := target_utilization
          nodes := nodes
          primaries := primaries
          replicas := replicas
          shard_size_gb := shard_size_gb
          overhead_merge := overhead_merge
          headroom := headroom
          buffer_per_node_gb := buffer_per_node_gb }

theorem F.add_num (a b : ℚ) : (F.num a).add (F.num b) = F.num (a + b) := rfl

theorem F.mul_num (a b : ℚ) : (F.num a).mul (F.num b) = F.num (a * b) := rfl

theorem F.div_num (a b : ℚ) (hb : b ≠ 0) :
    (F.num a).div (F.num b) = F.num (a / b) := by
  simp [F.div, hb]

theorem F.div_nan (x : F) : x.div F.nan = F.nan := by
  cases x <;> rfl

theorem F.fle_num (a b : ℚ) : (F.num a).fle (F.num b) = decide (a ≤ b) := rfl

theorem F.flt_num (a b : ℚ) : (F.num a).flt (F.num b) = decide (a < b) := rfl

/-- On a fully valid input (all floats finite), `plan_capacity` returns the
explicit plan record; every derived field is the exact rational given by the
derivation chain.  Shared workhorse for the claims below. -/
theorem plan_capacity_valid (nodes primaries replicas : ℕ) (s m h u : ℚ)
    (b : Option ℚ)
    (hn : nodes ≠ 0) (hu0 : 0 < u) (hu1 : u ≤ 1) (hm : 0 ≤ m) (hh : 0 ≤ h)
    (hs : 0 < s) :
    plan_capacity nodes primaries replicas (F.num s) (F.num m) (F.num h)
        (b.map F.num) (F.num u) =
      .ok { base := F.num ((primaries : ℚ) * s * (1 + (replicas : ℚ)))
            with_merge := F.num ((primaries : ℚ) * s * (1 + (replicas : ℚ)) * (1 + m))
            with_headroom :=
              F.num ((primaries : ℚ) * s * (1 + (replicas : ℚ)) * (1 + m) * (1 + h))
            buffer_total := F.num (b.getD s * (nodes : ℚ))
            total_cluster :=
              F.num ((primaries : ℚ) * s * (1 + (replicas : ℚ)) * (1 + m) * (1 + h)
                + b.getD s * (nodes : ℚ))
            per_node :=
              F.num (((primaries : ℚ) * s * (1 + (replicas : ℚ)) * (1 + m) * (1 + h)
                + b.getD s * (nodes : ℚ)) / (nodes : ℚ))
            disk_per_node :=
              F.num ((((primaries : ℚ) * s * (1 + (replicas : ℚ)) * (1 + m) * (1 + h)
                + b.getD s * (nodes : ℚ)) / (nodes : ℚ)) / u)
            target_utilization := F.num u
            nodes := nodes
            primaries := primaries
            replicas := replicas
            shard_size_gb := F.num s
            overhead_merge := F.num m
            headroom := F.num h
            buffer_per_node_gb := b.map F.num } := by
  have hnq : (nodes : ℚ) ≠ 0 := Nat.cast_ne_zero.mpr hn
  have huq : u ≠ 0 := ne_of_gt hu0
  have c2 : ((F.num u).fle (F.num 0) || (F.num 1).flt (F.num u)) = false := by
    simp only [F.fle_num, F.flt_num, Bool.or_eq_false_iff, decide_eq_false_iff_not,
      not_le, not_lt]
    exact ⟨hu0, hu1⟩
  have c3 : ((F.num m).flt (F.num 0) || (F.num h).flt (F.num 0)) = false := by
    simp only [F.flt_num, Bool.or_eq_false_iff, decide_eq_false_iff_not, not_lt]
    exact ⟨hm, hh⟩
  have c4 : (F.num s).fle (F.num 0) = false := by
    simp only [F.fle_num, decide_eq_false_iff_not, not_le]
    exact hs
  cases b with
  | none =>
      simp only [plan_capacity, if_neg hn, c2, c3, c4, Bool.false_eq_true, if_false,
        Option.map_none', Option.getD_none, F.add_num, F.mul_num,
        F.div_num _ _ hnq, F.div_num _ _ huq, Except.ok.injEq, Plan.mk.injEq,
        F.num.injEq]
  | some bq =>
      simp only [plan_capacity, if_neg hn, c2, c3, c4, Bool.false_eq_true, if_false,
        Option.map_some', Option.getD_some, F.add_num, F.mul_num,
        F.div_num _ _ hnq, F.div_num _ _ huq, Except.ok.injEq, Plan.mk.injEq,
        F.num.injEq]

/-- The plan record that `plan_capacity` computes at Scenario A of the spec
(nodes = 5, primaries = 10, replicas = 1, shard_size_gb = 50,
overhead_merge = 0.20, headroom = 0.30, buffer absent,
target_utilization = 0.75); disk_per_node = 1448/3 = 482.666… . -/
def planA : Plan :=
  { base := F.num 1000
    with_merge := F.num 1200
    with_headroom := F.num 1560
    buffer_total := F.num 250
    total_cluster := F.num 1810
    per_node := F.num 362
    disk_per_node := F.num (1448 / 3)
    target_utilization := F.num (3 / 4)
    nodes := 5
    primaries := 10
    replicas := 1
    shard_size_gb := F.num 50
    overhead_merge := F.num (1 / 5)
    headroom := F.num (3 / 10)
    buffer_per_node_gb := none }

/-- Full case analysis of `plan_capacity` on finite (rational) float inputs:
the four checks fire in source order, otherwise the explicit plan comes back.
Shared workhorse for the error-handling claims below. -/
theorem plan_capacity_rat_cases (nodes primaries replicas : ℕ) (s m h u : ℚ)
    (b : Option ℚ) :
    plan_capacity nodes primaries replicas (F.num s) (F.num m) (F.num h)
        (b.map F.num) (F.num u) =
      if nodes = 0 then .error "nodes must be > 0"
      else if u ≤ 0 ∨ 1 < u then .error "target_utilization must be in (0, 1]"
      else if m < 0 ∨ h < 0 then .error "overhead_merge/headroom must be >= 0"
      else if s ≤ 0 then .error "shard_size_gb must be > 0"
      else
        .ok { base := F.num ((primaries : ℚ) * s * (1 + (replicas : ℚ)))
              with_merge :=
                F.num ((primaries : ℚ) * s * (1 + (replicas : ℚ)) * (1 + m))
              with_headroom :=
                F.num ((primaries : ℚ) * s * (1 + (replicas : ℚ)) * (1 + m) * (1 + h))
              buffer_total := F.num (b.getD s * (nodes : ℚ))
              total_cluster :=
                F.num ((primaries : ℚ) * s * (1 + (replicas : ℚ)) * (1 + m) * (1 + h)
                  + b.getD s * (nodes : ℚ))
              per_node :=
                F.num (((primaries : ℚ) * s * (1 + (replicas : ℚ)) * (1 + m) * (1 + h)
                  + b.getD s * (nodes : ℚ)) / (nodes : ℚ))
              disk_per_node :=
                F.num ((((primaries : ℚ) * s * (1 + (replicas : ℚ)) * (1 + m) * (1 + h)
                  + b.getD s * (nodes : ℚ)) / (nodes : ℚ)) / u)
              target_utilization := F.num u
              nodes := nodes
              primaries := primaries
              replicas := replicas
              shard_size_gb := F.num s
              overhead_merge := F.num m
              headroom := F.num h
              buffer_per_node_gb := b.map F.num } := by
  by_cases h1 : nodes = 0
  · simp [plan_capacity, h1]
  · by_cases h2 : u ≤ 0 ∨ 1 < u
    · have hc : ((F.num u).fle (F.num 0) || (F.num 1).flt (F.num u)) = true := by
        simp only [F.fle_num, F.flt_num, Bool.or_eq_true, decide_eq_true_eq]
        exact h2
      rw [if_neg h1, if_pos h2]
      simp [plan_capacity, h1, hc]
    · by_cases h3 : m < 0 ∨ h < 0
      · have hc2 : ((F.num u).fle (F.num 0) || (F.num 1).flt (F.num u)) = false := by
          simp only [F.fle_num, F.flt_num, Bool.or_eq_false_iff,
            decide_eq_false_iff_not, not_le, not_lt]
          exact ⟨not_le.mp fun hle => h2 (Or.inl hle),
            not_lt.mp fun hlt => h2 (Or.inr hlt)⟩
        have hc : ((F.num m).flt (F.num 0) || (F.num h).flt (F.num 0)) = true := by
          simp only [F.flt_num, Bool.or_eq_true, decide_eq_true_eq]
          exact h3
        rw [if_neg h1, if_neg h2, if_pos h3]
        simp [plan_capacity, h1, hc2, hc]
      · by_cases h4 : s ≤ 0
        · have hc2 : ((F.num u).fle (F.num 0) || (F.num 1).flt (F.num u)) = false := by
            simp only [F.fle_num, F.flt_num, Bool.or_eq_false_iff,
              decide_eq_false_iff_not, not_le, not_lt]
            exact ⟨not_le.mp fun hle => h2 (Or.inl hle),
              not_lt.mp fun hlt => h2 (Or.inr hlt)⟩
          have hc3 : ((F.num m).flt (F.num 0) || (F.num h).flt (F.num 0)) = false := by
            simp only [F.flt_num, Bool.or_eq_false_iff, decide_eq_false_iff_not,
              not_lt]
            exact ⟨not_lt.mp fun hlt => h3 (Or.inl hlt),
              not_lt.mp fun hlt => h3 (Or.inr hlt)⟩
          have hc : (F.num s).fle (F.num 0) = true := by
            simpa only [F.fle_num, decide_eq_true_eq] using h4
          rw [if_neg h1, if_neg h2, if_neg h3, if_pos h4]
          simp [plan_capacity, h1, hc2, hc3, hc]
        · have hu0 : 0 < u := not_le.mp fun hle => h2 (Or.inl hle)
          have hu1 : u ≤ 1 := not_lt.mp fun hlt => h2 (Or.inr hlt)
          have hm : 0 ≤ m := not_lt.mp fun hlt => h3 (Or.inl hlt)
          have hh : 0 ≤ h := not_lt.mp fun hlt => h3 (Or.inr hlt)
          have hs : 0 < s := not_le.mp h4
          rw [if_neg h1, if_neg h2, if_neg h3, if_neg h4]
          exact plan_capacity_valid nodes primaries replicas s m h u b h1 hu0 hu1 hm hh hs

/-- C1: for every input that passes validation, the returned plan satisfies the
full derivation chain exactly (the rational model is exact, so the spec's
"relative error < 1e-9" holds with error 0): base = primaries * shard_size_gb
* (1 + replicas), with_merge = base * (1 + overhead_merge), with_headroom =
with_merge * (1 + headroom), buffer_total = buffer * nodes where buffer
defaults to shard_size_gb, total_cluster = with_headroom + buffer_total,
per_node = total_cluster / nodes, disk_per_node = per_node /
target_utilization. -/
theorem C1_derivation_chain (nodes primaries replicas : ℕ) (s m h u : ℚ)
    (b : Option ℚ)
    (hn : nodes ≠ 0) (hu0 : 0 < u) (hu1 : u ≤ 1) (hm : 0 ≤ m) (hh : 0 ≤ h)
    (hs : 0 < s) :
    ∃ pl : Plan,
      plan_capacity nodes primaries replicas (F.num s) (F.num m) (F.num h)
          (b.map F.num) (F.num u) = .ok pl ∧
      pl.base = F.num ((primaries : ℚ) * s * (1 + (replicas : ℚ))) ∧
      pl.with_merge = pl.base.mul (F.num (1 + m)) ∧
      pl.with_headroom = pl.with_merge.mul (F.num (1 + h)) ∧
      pl.buffer_total = F.num (b.getD s * (nodes : ℚ)) ∧
      pl.total_cluster = pl.with_headroom.add pl.buffer_total ∧
      pl.per_node = pl.total_cluster.div (F.num (nodes : ℚ)) ∧
      pl.disk_per_node = pl.per_node.div (F.num u) := by
  have hnq : (nodes : ℚ) ≠ 0 := Nat.cast_ne_zero.mpr hn
  have huq : u ≠ 0 := ne_of_gt hu0
  refine ⟨_, plan_capacity_valid nodes primaries replicas s m h u b hn hu0 hu1 hm hh hs,
    rfl, rfl, rfl, rfl, rfl, ?_, ?_⟩
  · simp [F.div_num _ _ hnq]
  · simp [F.div_num _ _ huq]

/-- Witness for C1 at Scenario A's input. -/
theorem C1_derivation_chain_witness :
    ∃ pl : Plan,
      plan_capacity 5 10 1 (F.num 50) (F.num (1 / 5)) (F.num (3 / 10))
          (Option.map F.num none) (F.num (3 / 4)) = .ok pl ∧
      pl.base = F.num (((10 : ℕ) : ℚ) * 50 * (1 + ((1 : ℕ) : ℚ))) ∧
      pl.with_merge = pl.base.mul (F.num (1 + 1 / 5)) ∧
      pl.with_headroom = pl.with_merge.mul (F.num (1 + 3 / 10)) ∧
      pl.buffer_total = F.num ((none : Option ℚ).getD 50 * ((5 : ℕ) : ℚ)) ∧
      pl.total_cluster = pl.with_headroom.add pl.buffer_total ∧
      pl.per_node = pl.total_cluster.div (F.num ((5 : ℕ) : ℚ)) ∧
      pl.disk_per_node = pl.per_node.div (F.num (3 / 4)) :=
  C1_derivation_chain 5 10 1 50 (1 / 5) (3 / 10) (3 / 4) none (by decide)
    (by norm_num) (by norm_num) (by norm_num) (by norm_num) (by norm_num)

/-- C2: on finite inputs, `plan_capacity` returns a validation error exactly
when nodes = 0, or target_utilization lies outside (0, 1], or overhead_merge
or headroom is negative, or shard_size_gb is not positive; every other input —
in particular primaries = 0, replicas = 0, target_utilization = 1 — is
accepted (the claim's boundary cases are instances of this equivalence). -/
theorem C2_reject_iff (nodes primaries replicas : ℕ) (s m h u : ℚ)
    (b : Option ℚ) :
    (∃ e, plan_capacity nodes primaries replicas (F.num s) (F.num m) (F.num h)
        (b.map F.num) (F.num u) = .error e) ↔
      (nodes = 0 ∨ (u ≤ 0 ∨ 1 < u) ∨ (m < 0 ∨ h < 0) ∨ s ≤ 0) := by
  rw [plan_capacity_rat_cases]
  split_ifs with h1 h2 h3 h4 <;> simp_all

/-- C3: validation short-circuits in the fixed source order — nodes, then
target_utilization, then overhead_merge/headroom, then shard_size_gb: whenever
`plan_capacity` returns an error, it is the message of the earliest violated
check, regardless of how many later checks are also violated.  (The error is a
returned value, not a fault, and no plan is produced alongside it.) -/
theorem C3_short_circuit_order (nodes primaries replicas : ℕ) (s m h u : ℚ)
    (b : Option ℚ) (e : String)
    (he : plan_capacity nodes primaries replicas (F.num s) (F.num m) (F.num h)
        (b.map F.num) (F.num u) = .error e) :
    e = if nodes = 0 then "nodes must be > 0"
        else if u ≤ 0 ∨ 1 < u then "target_utilization must be in (0, 1]"
        else if m < 0 ∨ h < 0 then "overhead_merge/headroom must be >= 0"
        else "shard_size_gb must be > 0" := by
  rw [plan_capacity_rat_cases] at he
  split_ifs at he ⊢ <;> simp_all

/-- Witness for C3 at a concrete input violating three checks at once
(target_utilization = 5, overhead_merge = -1, shard_size_gb = -1): the error
is the one of the earliest violated check, the target_utilization one. -/
theorem C3_short_circuit_order_witness :
    "target_utilization must be in (0, 1]" =
      if (1 : ℕ) = 0 then "nodes must be > 0"
      else if (5 : ℚ) ≤ 0 ∨ (1 : ℚ) < 5 then "target_utilization must be in (0, 1]"
      else if (-1 : ℚ) < 0 ∨ (0 : ℚ) < 0 then "overhead_merge/headroom must be >= 0"
      else "shard_size_gb must be > 0" :=
  C3_short_circuit_order 1 10 1 (-1) (-1) 0 5 none
    "target_utilization must be in (0, 1]" (by rfl)

/-- `plan_capacity` at Scenario A's input computes exactly `planA`. -/
theorem plan_capacity_scenario_A :
    plan_capacity 5 10 1 (F.num 50) (F.num (1 / 5)) (F.num (3 / 10)) none
        (F.num (3 / 4)) = .ok planA := by
  have h1 := plan_capacity_valid 5 10 1 50 (1 / 5) (3 / 10) (3 / 4) none
    (by decide) (by norm_num) (by norm_num) (by norm_num) (by norm_num)
    (by norm_num)
  rw [show (none : Option F) = Option.map F.num (none : Option ℚ) from rfl, h1]
  simp only [Except.ok.injEq, planA, Plan.mk.injEq, F.num.injEq]
  norm_num

/-- Counterexample to C4 as stated: at Scenario A's valid input, omitting the
buffer and passing `shard_size_gb` explicitly do NOT give plans identical in
every field — the echoed `buffer_per_node_gb` field is `none` in the first
plan and `some 50` in the second. -/
theorem C4_counterexample :
    plan_capacity 5 10 1 (F.num 50) (F.num (1 / 5)) (F.num (3 / 10)) none
        (F.num (3 / 4)) ≠
      plan_capacity 5 10 1 (F.num 50) (F.num (1 / 5)) (F.num (3 / 10))
        (some (F.num 50)) (F.num (3 / 4)) := by
  have h1 := plan_capacity_valid 5 10 1 50 (1 / 5) (3 / 10) (3 / 4) none
    (by decide) (by norm_num) (by norm_num) (by norm_num) (by norm_num) (by norm_num)
  have h2 := plan_capacity_valid 5 10 1 50 (1 / 5) (3 / 10) (3 / 4) (some 50)
    (by decide) (by norm_num) (by norm_num) (by norm_num) (by norm_num) (by norm_num)
  intro hcontra
  rw [show (none : Option F) = Option.map F.num (none : Option ℚ) from rfl,
    show (some (F.num 50) : Option F) = Option.map F.num (some (50 : ℚ)) from rfl,
    h1, h2] at hcontra
  simp only [Except.ok.injEq, Plan.mk.injEq] at hcontra
  exact Option.noConfusion hcontra.2.2.2.2.2.2.2.2.2.2.2.2.2.2

/-- C4 amended: for every valid input, omitting `buffer_per_node_gb` and
passing `shard_size_gb` explicitly produce plans identical in every field
except the echoed `buffer_per_node_gb`, which keeps the original optional
argument (`none` vs `some shard_size_gb`); in particular all derived values
coincide. -/
theorem C4_default_buffer_equiv (nodes primaries replicas : ℕ) (s m h u : ℚ)
    (hn : nodes ≠ 0) (hu0 : 0 < u) (hu1 : u ≤ 1) (hm : 0 ≤ m) (hh : 0 ≤ h)
    (hs : 0 < s) :
    ∃ pa pb : Plan,
      plan_capacity nodes primaries replicas (F.num s) (F.num m) (F.num h)
          none (F.num u) = .ok pa ∧
      plan_capacity nodes primaries replicas (F.num s) (F.num m) (F.num h)
          (some (F.num s)) (F.num u) = .ok pb ∧
      pa.base = pb.base ∧ pa.with_merge = pb.with_merge ∧
      pa.with_headroom = pb.with_headroom ∧ pa.buffer_total = pb.buffer_total ∧
      pa.total_cluster = pb.total_cluster ∧ pa.per_node = pb.per_node ∧
      pa.disk_per_node = pb.disk_per_node ∧
      pa.target_utilization = pb.target_utilization ∧ pa.nodes = pb.nodes ∧
      pa.primaries = pb.primaries ∧ pa.replicas = pb.replicas ∧
      pa.shard_size_gb = pb.shard_size_gb ∧
      pa.overhead_merge = pb.overhead_merge ∧ pa.headroom = pb.headroom ∧
      pa.buffer_per_node_gb = none ∧
      pb.buffer_per_node_gb = some (F.num s) :=
  ⟨_, _,
    plan_capacity_valid nodes primaries replicas s m h u none hn hu0 hu1 hm hh hs,
    plan_capacity_valid nodes primaries replicas s m h u (some s) hn hu0 hu1 hm hh hs,
    rfl, rfl, rfl, rfl, rfl, rfl, rfl, rfl, rfl, rfl, rfl, rfl, rfl, rfl, rfl, rfl⟩

/-- Witness for the amended C4 at Scenario A's input. -/
theorem C4_default_buffer_equiv_witness :
    ∃ pa pb : Plan,
      plan_capacity 5 10 1 (F.num 50) (F.num (1 / 5)) (F.num (3 / 10))
          none (F.num (3 / 4)) = .ok pa ∧
      plan_capacity 5 10 1 (F.num 50) (F.num (1 / 5)) (F.num (3 / 10))
          (some (F.num 50)) (F.num (3 / 4)) = .ok pb ∧
      pa.base = pb.base ∧ pa.with_merge = pb.with_merge ∧
      pa.with_headroom = pb.with_headroom ∧ pa.buffer_total = pb.buffer_total ∧
      pa.total_cluster = pb.total_cluster ∧ pa.per_node = pb.per_node ∧
      pa.disk_per_node = pb.disk_per_node ∧
      pa.target_utilization = pb.target_utilization ∧ pa.nodes = pb.nodes ∧
      pa.primaries = pb.primaries ∧ pa.replicas = pb.replicas ∧
      pa.shard_size_gb = pb.shard_size_gb ∧
      pa.overhead_merge = pb.overhead_merge ∧ pa.headroom = pb.headroom ∧
      pa.buffer_per_node_gb = none ∧
      pb.buffer_per_node_gb = some (F.num 50) :=
  C4_default_buffer_equiv 5 10 1 50 (1 / 5) (3 / 10) (3 / 4)
    (by decide) (by norm_num) (by norm_num) (by norm_num) (by norm_num) (by norm_num)

/-- C6: at Scenario A (nodes = 5, primaries = 10, replicas = 1,
shard_size_gb = 50, overhead_merge = 0.20, headroom = 0.30, buffer absent,
target_utilization = 0.75) `plan_capacity` succeeds with base = 1000,
with_merge = 1200, with_headroom = 1560, buffer_total = 250,
total_cluster = 1810, per_node = 362 and disk_per_node = 1448/3, which is
within 1/1000 of the claim's 482.667. -/
theorem C6_scenario_A :
    plan_capacity 5 10 1 (F.num 50) (F.num (1 / 5)) (F.num (3 / 10)) none
        (F.num (3 / 4)) = .ok planA ∧
      |(1448 : ℚ) / 3 - 482667 / 1000| < 1 / 1000 := by
  constructor
  · exact plan_capacity_scenario_A
  · rw [abs_sub_comm, abs_of_pos (by norm_num)]
    norm_num

/-- C7: for every valid input, the returned plan satisfies
disk_per_node * target_utilization = per_node exactly (the rational model is
exact, so the claim's relative-error bound of 1e-9 holds with error 0). -/
theorem C7_disk_times_utilization (nodes primaries replicas : ℕ)
    (s m h u : ℚ) (b : Option ℚ) (pl : Plan)
    (hn : nodes ≠ 0) (hu0 : 0 < u) (hu1 : u ≤ 1) (hm : 0 ≤ m) (hh : 0 ≤ h)
    (hs : 0 < s)
    (hpl : plan_capacity nodes primaries replicas (F.num s) (F.num m) (F.num h)
        (b.map F.num) (F.num u) = .ok pl) :
    pl.disk_per_node.mul pl.target_utilization = pl.per_node := by
  rw [plan_capacity_valid nodes primaries replicas s m h u b hn hu0 hu1 hm hh hs]
    at hpl
  have hrec := Except.ok.inj hpl
  subst hrec
  simp only [F.mul_num, F.num.injEq]
  exact div_mul_cancel₀ _ (ne_of_gt hu0)

/-- Witness for C7 at Scenario A: 1448/3 * 3/4 = 362. -/
theorem C7_disk_times_utilization_witness :
    planA.disk_per_node.mul planA.target_utilization = planA.per_node :=
  C7_disk_times_utilization 5 10 1 50 (1 / 5) (3 / 10) (3 / 4) none planA
    (by decide) (by norm_num) (by norm_num) (by norm_num) (by norm_num)
    (by norm_num) plan_capacity_scenario_A

/-- C9: for every valid input, the returned plan echoes every input
unchanged — nodes, primaries, replicas, shard_size_gb, overhead_merge,
headroom and target_utilization equal the arguments, and buffer_per_node_gb
is the original optional argument left unresolved: it is `none` exactly when
the argument was `none`. -/
theorem C9_echo_inputs (nodes primaries replicas : ℕ) (s m h u : ℚ)
    (b : Option ℚ)
    (hn : nodes ≠ 0) (hu0 : 0 < u) (hu1 : u ≤ 1) (hm : 0 ≤ m) (hh : 0 ≤ h)
    (hs : 0 < s) :
    ∃ pl : Plan,
      plan_capacity nodes primaries replicas (F.num s) (F.num m) (F.num h)
          (b.map F.num) (F.num u) = .ok pl ∧
      pl.nodes = nodes ∧ pl.primaries = primaries ∧ pl.replicas = replicas ∧
      pl.shard_size_gb = F.num s ∧ pl.overhead_merge = F.num m ∧
      pl.headroom = F.num h ∧ pl.target_utilization = F.num u ∧
      pl.buffer_per_node_gb = b.map F.num ∧
      (pl.buffer_per_node_gb = none ↔ b = none) := by
  refine ⟨_,
    plan_capacity_valid nodes primaries replicas s m h u b hn hu0 hu1 hm hh hs,
    rfl, rfl, rfl, rfl, rfl, rfl, rfl, rfl, ?_⟩
  cases b <;> simp

/-- Witness for C9 at Scenario B's input (nodes = 3, primaries = 6,
replicas = 1, shard_size_gb = 40, overhead_merge = 0.1, headroom = 0.2,
buffer_per_node_gb = 80, target_utilization = 0.8). -/
theorem C9_echo_inputs_witness :
    ∃ pl : Plan,
      plan_capacity 3 6 1 (F.num 40) (F.num (1 / 10)) (F.num (1 / 5))
          (Option.map F.num (some (80 : ℚ))) (F.num (4 / 5)) = .ok pl ∧
      pl.nodes = 3 ∧ pl.primaries = 6 ∧ pl.replicas = 1 ∧
      pl.shard_size_gb = F.num 40 ∧ pl.overhead_merge = F.num (1 / 10) ∧
      pl.headroom = F.num (1 / 5) ∧ pl.target_utilization = F.num (4 / 5) ∧
      pl.buffer_per_node_gb = Option.map F.num (some (80 : ℚ)) ∧
      (pl.buffer_per_node_gb = none ↔ (some (80 : ℚ)) = none) :=
  C9_echo_inputs 3 6 1 40 (1 / 10) (1 / 5) (4 / 5) (some 80)
    (by decide) (by norm_num) (by norm_num) (by norm_num) (by norm_num)
    (by norm_num)

/-- C5: increasing any one of nodes, primaries, replicas, shard_size_gb,
overhead_merge or headroom between two valid inputs (all other parameters
fixed) never decreases total_cluster.  "Valid" follows the spec's data model,
under which `buffer_per_node_gb`, when present, is positive (the code itself
never validates the buffer; a negative buffer would break the nodes case, but
such an input is outside the spec's input domain). -/
theorem C5_total_cluster_monotone :
    (∀ (n n' primaries replicas : ℕ) (s m h u : ℚ) (b : Option ℚ)
        (pa pb : Plan),
        n ≠ 0 → 0 < u → u ≤ 1 → 0 ≤ m → 0 ≤ h → 0 < s → (∀ x ∈ b, 0 < x) →
        n ≤ n' →
        plan_capacity n primaries replicas (F.num s) (F.num m) (F.num h)
          (b.map F.num) (F.num u) = .ok pa →
        plan_capacity n' primaries replicas (F.num s) (F.num m) (F.num h)
          (b.map F.num) (F.num u) = .ok pb →
        pa.total_cluster.fle pb.total_cluster = true) ∧
    (∀ (nodes p p' replicas : ℕ) (s m h u : ℚ) (b : Option ℚ) (pa pb : Plan),
        nodes ≠ 0 → 0 < u → u ≤ 1 → 0 ≤ m → 0 ≤ h → 0 < s → p ≤ p' →
        plan_capacity nodes p replicas (F.num s) (F.num m) (F.num h)
          (b.map F.num) (F.num u) = .ok pa →
        plan_capacity nodes p' replicas (F.num s) (F.num m) (F.num h)
          (b.map F.num) (F.num u) = .ok pb →
        pa.total_cluster.fle pb.total_cluster = true) ∧
    (∀ (nodes primaries r r' : ℕ) (s m h u : ℚ) (b : Option ℚ) (pa pb : Plan),
        nodes ≠ 0 → 0 < u → u ≤ 1 → 0 ≤ m → 0 ≤ h → 0 < s → r ≤ r' →
        plan_capacity nodes primaries r (F.num s) (F.num m) (F.num h)
          (b.map F.num) (F.num u) = .ok pa →
        plan_capacity nodes primaries r' (F.num s) (F.num m) (F.num h)
          (b.map F.num) (F.num u) = .ok pb →
        pa.total_cluster.fle pb.total_cluster = true) ∧
    (∀ (nodes primaries replicas : ℕ) (s s' m h u : ℚ) (b : Option ℚ)
        (pa pb : Plan),
        nodes ≠ 0 → 0 < u → u ≤ 1 → 0 ≤ m → 0 ≤ h → 0 < s → s ≤ s' →
        plan_capacity nodes primaries replicas (F.num s) (F.num m) (F.num h)
          (b.map F.num) (F.num u) = .ok pa →
        plan_capacity nodes primaries replicas (F.num s') (F.num m) (F.num h)
          (b.map F.num) (F.num u) = .ok pb →
        pa.total_cluster.fle pb.total_cluster = true) ∧
    (∀ (nodes primaries replicas : ℕ) (s m m' h u : ℚ) (b : Option ℚ)
        (pa pb : Plan),
        nodes ≠ 0 → 0 < u → u ≤ 1 → 0 ≤ m → 0 ≤ h → 0 < s → m ≤ m' →
        plan_capacity nodes primaries replicas (F.num s) (F.num m) (F.num h)
          (b.map F.num) (F.num u) = .ok pa →
        plan_capacity nodes primaries replicas (F.num s) (F.num m') (F.num h)
          (b.map F.num) (F.num u) = .ok pb →
        pa.total_cluster.fle pb.total_cluster = true) ∧
    (∀ (nodes primaries replicas : ℕ) (s m h h' u : ℚ) (b : Option ℚ)
        (pa pb : Plan),
        nodes ≠ 0 → 0 < u → u ≤ 1 → 0 ≤ m → 0 ≤ h → 0 < s → h ≤ h' →
        plan_capacity nodes primaries replicas (F.num s) (F.num m) (F.num h)
          (b.map F.num) (F.num u) = .ok pa →
        plan_capacity nodes primaries replicas (F.num s) (F.num m) (F.num h')
          (b.map F.num) (F.num u) = .ok pb →
        pa.total_cluster.fle pb.total_cluster = true) := by
  refine ⟨?_, ?_, ?_, ?_, ?_, ?_⟩
  · -- nodes
    intro n n' primaries replicas s m h u b pa pb hn hu0 hu1 hm hh hs hb hle
      hpa hpb
    have hn' : n' ≠ 0 := Nat.pos_iff_ne_zero.mp
      (lt_of_lt_of_le (Nat.pos_of_ne_zero hn) hle)
    rw [plan_capacity_valid n primaries replicas s m h u b hn hu0 hu1 hm hh hs]
      at hpa
    rw [plan_capacity_valid n' primaries replicas s m h u b hn' hu0 hu1 hm hh hs]
      at hpb
    obtain rfl := Except.ok.inj hpa
    obtain rfl := Except.ok.inj hpb
    simp only [F.fle_num, decide_eq_true_eq]
    have hB : 0 ≤ b.getD s := by
      cases b with
      | none => exact hs.le
      | some x => exact (hb x (by simp)).le
    have := mul_le_mul_of_nonneg_left
      (show (n : ℚ) ≤ (n' : ℚ) from Nat.cast_le.mpr hle) hB
    linarith
  · -- primaries
    intro nodes p p' replicas s m h u b pa pb hn hu0 hu1 hm hh hs hle hpa hpb
    rw [plan_capacity_valid nodes p replicas s m h u b hn hu0 hu1 hm hh hs]
      at hpa
    rw [plan_capacity_valid nodes p' replicas s m h u b hn hu0 hu1 hm hh hs]
      at hpb
    obtain rfl := Except.ok.inj hpa
    obtain rfl := Except.ok.inj hpb
    simp only [F.fle_num, decide_eq_true_eq]
    have h1 : (p : ℚ) * s ≤ (p' : ℚ) * s :=
      mul_le_mul_of_nonneg_right (Nat.cast_le.mpr hle) hs.le
    have h2 := mul_le_mul_of_nonneg_right h1
      (show (0 : ℚ) ≤ 1 + (replicas : ℚ) by positivity)
    have h3 := mul_le_mul_of_nonneg_right h2 (show (0 : ℚ) ≤ 1 + m by linarith)
    have h4 := mul_le_mul_of_nonneg_right h3 (show (0 : ℚ) ≤ 1 + h by linarith)
    linarith
  · -- replicas
    intro nodes primaries r r' s m h u b pa pb hn hu0 hu1 hm hh hs hle hpa hpb
    rw [plan_capacity_valid nodes primaries r s m h u b hn hu0 hu1 hm hh hs]
      at hpa
    rw [plan_capacity_valid nodes primaries r' s m h u b hn hu0 hu1 hm hh hs]
      at hpb
    obtain rfl := Except.ok.inj hpa
    obtain rfl := Except.ok.inj hpb
    simp only [F.fle_num, decide_eq_true_eq]
    have h1 : (1 : ℚ) + (r : ℚ) ≤ 1 + (r' : ℚ) := by
      have : (r : ℚ) ≤ (r' : ℚ) := Nat.cast_le.mpr hle
      linarith
    have h2 := mul_le_mul_of_nonneg_left h1
      (mul_nonneg (Nat.cast_nonneg primaries) hs.le)
    have h3 := mul_le_mul_of_nonneg_right h2 (show (0 : ℚ) ≤ 1 + m by linarith)
    have h4 := mul_le_mul_of_nonneg_right h3 (show (0 : ℚ) ≤ 1 + h by linarith)
    linarith
  · -- shard_size_gb
    intro nodes primaries replicas s s' m h u b pa pb hn hu0 hu1 hm hh hs hle
      hpa hpb
    have hs' : 0 < s' := lt_of_lt_of_le hs hle
    rw [plan_capacity_valid nodes primaries replicas s m h u b hn hu0 hu1 hm hh
      hs] at hpa
    rw [plan_capacity_valid nodes primaries replicas s' m h u b hn hu0 hu1 hm hh
      hs'] at hpb
    obtain rfl := Except.ok.inj hpa
    obtain rfl := Except.ok.inj hpb
    simp only [F.fle_num, decide_eq_true_eq]
    have h1 : (primaries : ℚ) * s ≤ (primaries : ℚ) * s' :=
      mul_le_mul_of_nonneg_left hle (Nat.cast_nonneg primaries)
    have h2 := mul_le_mul_of_nonneg_right h1
      (show (0 : ℚ) ≤ 1 + (replicas : ℚ) by positivity)
    have h3 := mul_le_mul_of_nonneg_right h2 (show (0 : ℚ) ≤ 1 + m by linarith)
    have h4 := mul_le_mul_of_nonneg_right h3 (show (0 : ℚ) ≤ 1 + h by linarith)
    have hbb : (b.getD s) * (nodes : ℚ) ≤ (b.getD s') * (nodes : ℚ) := by
      cases b with
      | none =>
          exact mul_le_mul_of_nonneg_right hle (Nat.cast_nonneg nodes)
      | some x => simp
    linarith
  · -- overhead_merge
    intro nodes primaries replicas s m m' h u b pa pb hn hu0 hu1 hm hh hs hle
      hpa hpb
    have hm' : 0 ≤ m' := le_trans hm hle
    rw [plan_capacity_valid nodes primaries replicas s m h u b hn hu0 hu1 hm hh
      hs] at hpa
    rw [plan_capacity_valid nodes primaries replicas s m' h u b hn hu0 hu1 hm'
      hh hs] at hpb
    obtain rfl := Except.ok.inj hpa
    obtain rfl := Except.ok.inj hpb
    simp only [F.fle_num, decide_eq_true_eq]
    have h1 : (1 : ℚ) + m ≤ 1 + m' := by linarith
    have h2 := mul_le_mul_of_nonneg_left h1
      (show (0 : ℚ) ≤ (primaries : ℚ) * s * (1 + (replicas : ℚ)) from
        mul_nonneg (mul_nonneg (Nat.cast_nonneg primaries) hs.le) (by positivity))
    have h3 := mul_le_mul_of_nonneg_right h2 (show (0 : ℚ) ≤ 1 + h by linarith)
    linarith
  · -- headroom
    intro nodes primaries replicas s m h h' u b pa pb hn hu0 hu1 hm hh hs hle
      hpa hpb
    have hh' : 0 ≤ h' := le_trans hh hle
    rw [plan_capacity_valid nodes primaries replicas s m h u b hn hu0 hu1 hm hh
      hs] at hpa
    rw [plan_capacity_valid nodes primaries replicas s m h' u b hn hu0 hu1 hm
      hh' hs] at hpb
    obtain rfl := Except.ok.inj hpa
    obtain rfl := Except.ok.inj hpb
    simp only [F.fle_num, decide_eq_true_eq]
    have h1 : (1 : ℚ) + h ≤ 1 + h' := by linarith
    have h2 := mul_le_mul_of_nonneg_left h1
      (show (0 : ℚ) ≤ (primaries : ℚ) * s * (1 + (replicas : ℚ)) * (1 + m) from
        mul_nonneg (mul_nonneg (mul_nonneg (Nat.cast_nonneg primaries) hs.le)
          (by positivity)) (by linarith))
    linarith

/-- The plan record computed at Scenario A's input with nodes raised to 6. -/
def planA6 : Plan :=
  { base := F.num 1000
    with_merge := F.num 1200
    with_headroom := F.num 1560
    buffer_total := F.num 300
    total_cluster := F.num 1860
    per_node := F.num 310
    disk_per_node := F.num (1240 / 3)
    target_utilization := F.num (3 / 4)
    nodes := 6
    primaries := 10
    replicas := 1
    shard_size_gb := F.num 50
    overhead_merge := F.num (1 / 5)
    headroom := F.num (3 / 10)
    buffer_per_node_gb := none }

/-- `plan_capacity` at Scenario A's input with nodes = 6 computes `planA6`. -/
theorem plan_capacity_scenario_A6 :
    plan_capacity 6 10 1 (F.num 50) (F.num (1 / 5)) (F.num (3 / 10)) none
        (F.num (3 / 4)) = .ok planA6 := by
  have h1 := plan_capacity_valid 6 10 1 50 (1 / 5) (3 / 10) (3 / 4) none
    (by decide) (by norm_num) (by norm_num) (by norm_num) (by norm_num)
    (by norm_num)
  rw [show (none : Option F) = Option.map F.num (none : Option ℚ) from rfl, h1]
  simp only [Except.ok.injEq, planA6, Plan.mk.injEq, F.num.injEq]
  norm_num

/-- Witness for C5 at a concrete pair of valid inputs: Scenario A, and the
same input with nodes increased from 5 to 6 (first conjunct of the
monotonicity theorem): 1810 ≤ 1860. -/
theorem C5_total_cluster_monotone_witness :
    planA.total_cluster.fle planA6.total_cluster = true :=
  C5_total_cluster_monotone.1 5 6 10 1 50 (1 / 5) (3 / 10) (3 / 4) none
    planA planA6 (by decide) (by norm_num) (by norm_num) (by norm_num)
    (by norm_num) (by norm_num) (by simp) (by norm_num)
    plan_capacity_scenario_A plan_capacity_scenario_A6

/-- C8: `plan_capacity` is deterministic and side-effect free.  In the
embedding this is exact: the Rust function performs no I/O and reads no
global state, so it embeds as a total pure function of precisely its eight
arguments, and two calls on identical arguments (over the full input type,
NaN included) return identical results, whether `Ok` or `Err`. -/
theorem C8_deterministic (n p r : ℕ) (s m h : F) (b : Option F) (u : F)
    (n' p' r' : ℕ) (s' m' h' : F) (b' : Option F) (u' : F)
    (hn : n = n') (hp : p = p') (hr : r = r') (hs : s = s') (hm : m = m')
    (hh : h = h') (hb : b = b') (hu : u = u') :
    plan_capacity n p r s m h b u = plan_capacity n' p' r' s' m' h' b' u' := by
  subst hn; subst hp; subst hr; subst hs; subst hm; subst hh; subst hb; subst hu
  rfl

/-- Witness for C8 at Scenario A's arguments. -/
theorem C8_deterministic_witness :
    plan_capacity 5 10 1 (F.num 50) (F.num (1 / 5)) (F.num (3 / 10)) none
        (F.num (3 / 4)) =
      plan_capacity 5 10 1 (F.num 50) (F.num (1 / 5)) (F.num (3 / 10)) none
        (F.num (3 / 4)) :=
  C8_deterministic 5 10 1 (F.num 50) (F.num (1 / 5)) (F.num (3 / 10)) none
    (F.num (3 / 4)) 5 10 1 (F.num 50) (F.num (1 / 5)) (F.num (3 / 10)) none
    (F.num (3 / 4)) rfl rfl rfl rfl rfl rfl rfl rfl

/-- C10: a NaN in any one of the four validated float parameters
(shard_size_gb, overhead_merge, headroom, target_utilization — the other
inputs being valid) makes every comparison of the corresponding check false,
so `plan_capacity` returns `Ok` rather than a validation error, and the NaN
propagates into the derived fields — in each case down to `disk_per_node`. -/
theorem C10_nan_passes_validation (nodes primaries replicas : ℕ)
    (s m h u : ℚ) (b : Option ℚ)
    (hn : nodes ≠ 0) (hu0 : 0 < u) (hu1 : u ≤ 1) (hm : 0 ≤ m) (hh : 0 ≤ h)
    (hs : 0 < s) :
    (∃ pl, plan_capacity nodes primaries replicas F.nan (F.num m) (F.num h)
        (b.map F.num) (F.num u) = .ok pl ∧ pl.disk_per_node = F.nan) ∧
    (∃ pl, plan_capacity nodes primaries replicas (F.num s) F.nan (F.num h)
        (b.map F.num) (F.num u) = .ok pl ∧ pl.disk_per_node = F.nan) ∧
    (∃ pl, plan_capacity nodes primaries replicas (F.num s) (F.num m) F.nan
        (b.map F.num) (F.num u) = .ok pl ∧ pl.disk_per_node = F.nan) ∧
    (∃ pl, plan_capacity nodes primaries replicas (F.num s) (F.num m) (F.num h)
        (b.map F.num) F.nan = .ok pl ∧ pl.disk_per_node = F.nan) := by
  have c2 : ((F.num u).fle (F.num 0) || (F.num 1).flt (F.num u)) = false := by
    simp only [F.fle_num, F.flt_num, Bool.or_eq_false_iff,
      decide_eq_false_iff_not, not_le, not_lt]
    exact ⟨hu0, hu1⟩
  have c3 : ((F.num m).flt (F.num 0) || (F.num h).flt (F.num 0)) = false := by
    simp only [F.flt_num, Bool.or_eq_false_iff, decide_eq_false_iff_not, not_lt]
    exact ⟨hm, hh⟩
  have c4 : (F.num s).fle (F.num 0) = false := by
    simp only [F.fle_num, decide_eq_false_iff_not, not_le]
    exact hs
  have c4n : F.nan.fle (F.num 0) = false := rfl
  have c2n : (F.nan.fle (F.num 0) || (F.num 1).flt F.nan) = false := rfl
  have c3m : (F.nan.flt (F.num 0) || (F.num h).flt (F.num 0)) = false := by
    simp only [show F.nan.flt (F.num 0) = false from rfl, F.flt_num,
      Bool.false_or, decide_eq_false_iff_not, not_lt]
    exact hh
  have c3h : ((F.num m).flt (F.num 0) || F.nan.flt (F.num 0)) = false := by
    simp only [show F.nan.flt (F.num 0) = false from rfl, F.flt_num,
      Bool.or_false, decide_eq_false_iff_not, not_lt]
    exact hm
  refine ⟨?_, ?_, ?_, ?_⟩
  · cases b with
    | none =>
        exact ⟨_, by simp only [plan_capacity, if_neg hn, c2, c3, c4n,
          Bool.false_eq_true, if_false]; rfl, rfl⟩
    | some x =>
        exact ⟨_, by simp only [plan_capacity, if_neg hn, c2, c3, c4n,
          Bool.false_eq_true, if_false]; rfl, rfl⟩
  · cases b with
    | none =>
        exact ⟨_, by simp only [plan_capacity, if_neg hn, c2, c3m, c4,
          Bool.false_eq_true, if_false]; rfl, rfl⟩
    | some x =>
        exact ⟨_, by simp only [plan_capacity, if_neg hn, c2, c3m, c4,
          Bool.false_eq_true, if_false]; rfl, rfl⟩
  · cases b with
    | none =>
        exact ⟨_, by simp only [plan_capacity, if_neg hn, c2, c3h, c4,
          Bool.false_eq_true, if_false]; rfl, rfl⟩
    | some x =>
        exact ⟨_, by simp only [plan_capacity, if_neg hn, c2, c3h, c4,
          Bool.false_eq_true, if_false]; rfl, rfl⟩
  · cases b with
    | none =>
        exact ⟨_, by simp only [plan_capacity, if_neg hn, c2n, c3, c4,
          Bool.false_eq_true, if_false]; rfl, F.div_nan _⟩
    | some x =>
        exact ⟨_, by simp only [plan_capacity, if_neg hn, c2n, c3, c4,
          Bool.false_eq_true, if_false]; rfl, F.div_nan _⟩

/-- Witness for C10 at Scenario A's remaining (valid) arguments. -/
theorem C10_nan_passes_validation_witness :
    (∃ pl, plan_capacity 5 10 1 F.nan (F.num (1 / 5)) (F.num (3 / 10))
        (Option.map F.num none) (F.num (3 / 4)) = .ok pl ∧
        pl.disk_per_node = F.nan) ∧
    (∃ pl, plan_capacity 5 10 1 (F.num 50) F.nan (F.num (3 / 10))
        (Option.map F.num none) (F.num (3 / 4)) = .ok pl ∧
        pl.disk_per_node = F.nan) ∧
    (∃ pl, plan_capacity 5 10 1 (F.num 50) (F.num (1 / 5)) F.nan
        (Option.map F.num none) (F.num (3 / 4)) = .ok pl ∧
        pl.disk_per_node = F.nan) ∧
    (∃ pl, plan_capacity 5 10 1 (F.num 50) (F.num (1 / 5)) (F.num (3 / 10))
        (Option.map F.num none) F.nan = .ok pl ∧
        pl.disk_per_node = F.nan) :=
  C10_nan_passes_validation 5 10 1 50 (1 / 5) (3 / 10) (3 / 4) none
    (by decide) (by norm_num) (by norm_num) (by norm_num) (by norm_num)
    (by norm_num)

end EsDiskPlanner
